import Mathlib

/-!
Verification of the vendor-performance analysis pipeline against its
specification.  The development shallowly embeds the two Python modules:

* `ingestion_db.py` — the bulk loader (`ingest_db`, `load_raw_data`);
* `get_vendor_summary.py` — the vendor summary builder
  (`create_vendor_summary`, `clean_data`, and the `__main__` block).

Tabular data is modelled with explicit row structures; pandas cell values of
the object/float columns are modelled by small inductive types.  The numeric
database columns are carried as exact integers: the pipeline applies only
sums, differences, order comparisons and the final ratio divisions to them,
all of which float64 performs exactly on such inputs, and the ratio divisions
land in `FVal`, exact rationals extended with the IEEE-754 special values
that zero denominators produce.  Fallible steps return `Except`.
-/

/-- A cell of a pandas object (text) column: a string, a number, or a missing
value (`tnull` stands for both `None` and `NaN`). -/
inductive TVal
  | tstr (s : String)
  | tnum (q : ℚ)
  | tnull
deriving DecidableEq, Repr

/-- A cell of a float64 column: a finite value (exact rational in this model),
positive or negative infinity, or NaN. -/
inductive FVal
  | fin (q : ℚ)
  | pinf
  | ninf
  | nan
deriving DecidableEq, Repr

/-- Whitespace test used by the model of Python's `str.strip`. -/
def isSpaceChar (c : Char) : Bool :=
  c = ' ' ∨ c = '\t' ∨ c = '\n' ∨ c = '\r'

/-- Model of Python's `str.strip()`: remove leading and trailing whitespace. -/
def pyStrip (s : String) : String :=
  String.mk (((s.toList.dropWhile isSpaceChar).reverse.dropWhile isSpaceChar).reverse)

/-- Digit-sequence parser (empty list rejected), used by `parseDecimal`. -/
def parseDigits (l : List Char) : Option Nat :=
  if l.isEmpty then none
  else l.foldl (fun acc c =>
    match acc with
    | none => none
    | some n => if c.isDigit then some (n * 10 + (c.toNat - 48)) else none) (some 0)

/-- Parser for decimal numeric literals (optional sign, digits, optional
fractional part), modelling the conversions `float` performs on strings. -/
def parseDecimal (s : String) : Option ℚ :=
  let core : List Char → Option ℚ := fun l =>
    let a := l.takeWhile (fun c => ¬ c = '.')
    let rest := l.dropWhile (fun c => ¬ c = '.')
    match rest with
    | [] => (parseDigits a).map (fun n => (n : ℚ))
    | _ :: b =>
      if '.' ∈ b then none
      else if a.isEmpty ∧ b.isEmpty then none
      else
        match (if a.isEmpty then some 0 else parseDigits a),
              (if b.isEmpty then some 0 else parseDigits b) with
        | some n, some m => some ((n : ℚ) + (m : ℚ) / ((10 : ℚ) ^ b.length))
        | _, _ => none
  match s.toList with
  | '-' :: rest => (core rest).map (fun q => -q)
  | '+' :: rest => core rest
  | cs => core cs

/-- Model of `Series.astype('float64')` on one cell: numbers are kept, missing
values stay missing (`NaN`), numeric strings are parsed, anything else raises. -/
def astypeFloat (v : TVal) : Except String FVal :=
  match v with
  | TVal.tnum q => Except.ok (FVal.fin q)
  | TVal.tnull => Except.ok FVal.nan
  | TVal.tstr s =>
    match parseDecimal (pyStrip s) with
    | some q => Except.ok (FVal.fin q)
    | none => Except.error "ValueError: could not convert string to float"

/-- Model of `fillna(0)` on an object-column cell: missing becomes the number 0. -/
def fillnaT (v : TVal) : TVal :=
  match v with
  | TVal.tnull => TVal.tnum 0
  | x => x

/-- Model of `fillna(0)` on a float-column cell: NaN becomes 0 (infinities are
not missing values and are kept). -/
def fillnaF (v : FVal) : FVal :=
  match v with
  | FVal.nan => FVal.fin 0
  | x => x

/-- Model of `Series.str.strip()` on one cell: strings are stripped, every
non-string cell (numbers, missing values) becomes missing. -/
def strStrip (v : TVal) : TVal :=
  match v with
  | TVal.tstr s => TVal.tstr (pyStrip s)
  | _ => TVal.tnull

/-- Float division of exact values, with the IEEE-754 zero-denominator results
pandas produces: `x / 0` is `+inf` for positive `x`, `-inf` for negative `x`,
and `NaN` for `0 / 0`. -/
def fdivQ (a b : Int) : FVal :=
  if b = 0 then (if 0 < a then FVal.pinf else if a < 0 then FVal.ninf else FVal.nan)
  else FVal.fin ((a : ℚ) / (b : ℚ))

/-- Multiplication of a float value by a positive constant (used with the
literal 100 of the profit-margin formula): finite values scale, the special
values are preserved. -/
def fmulC (v : FVal) (c : ℚ) : FVal :=
  match v with
  | FVal.fin q => FVal.fin (q * c)
  | FVal.pinf => FVal.pinf
  | FVal.ninf => FVal.ninf
  | FVal.nan => FVal.nan

/-- One row of the `purchases` base table (columns used by the query). -/
structure PurchaseRow where
  VendorNumber : Int
  VendorName : TVal
  Brand : Int
  Description : TVal
  PurchasePrice : Int
  Quantity : Int
  Dollars : Int
deriving DecidableEq, Repr

/-- One row of the `purchase_prices` base table. -/
structure PriceRow where
  Brand : Int
  Price : Option Int
  Volume : TVal
deriving DecidableEq, Repr

/-- One row of the `vendor_invoice` base table. -/
structure InvoiceRow where
  VendorNumber : Int
  Freight : Int
deriving DecidableEq, Repr

/-- One row of the `Sales` base table. -/
structure SalesRow where
  VendorNo : Int
  Brand : Int
  SalesQuantity : Int
  SalesDollars : Int
  SalesPrice : Int
  ExciseTax : Int
deriving DecidableEq, Repr

/-- The relational store as read by the summary query. -/
structure DB where
  purchases : List PurchaseRow
  purchase_prices : List PriceRow
  vendor_invoice : List InvoiceRow
  sales : List SalesRow
deriving DecidableEq, Repr

/-- One row of the `FreightSummary` sub-aggregate. -/
structure FreightRow where
  VendorNumber : Int
  FreightCost : Int
deriving DecidableEq, Repr

/-- One row of the `SalesSummary` sub-aggregate. -/
structure SSRow where
  VendorNo : Int
  Brand : Int
  TotalSalesQuantity : Int
  TotalSalesDollars : Int
  TotalSalesPrice : Int
  TotalExciseTax : Int
deriving DecidableEq, Repr

/-- One row of the `PurchaseSummary` sub-aggregate. -/
structure PSRow where
  VendorNumber : Int
  VendorName : TVal
  Brand : Int
  Description : TVal
  PurchasePrice : Int
  ActualPrice : Option Int
  Volume : TVal
  TotalPurchaseQuantity : Int
  TotalPurchaseDollars : Int
deriving DecidableEq, Repr

/-- Sub-aggregate `FreightSummary`: `SELECT VendorNumber, SUM(Freight) FROM vendor_invoice
GROUP BY VendorNumber`. -/
def freightSummary (db : DB) : List FreightRow :=
  ((db.vendor_invoice.map (fun r => r.VendorNumber)).dedup).map (fun v =>
    { VendorNumber := v
      FreightCost :=
        ((db.vendor_invoice.filter (fun r => r.VendorNumber = v)).map
          (fun r => r.Freight)).sum })

/-- Sub-aggregate `SalesSummary`: sums of SalesQuantity, SalesDollars, SalesPrice, ExciseTax
over `Sales`, grouped by `(VendorNo, Brand)`. -/
def salesSummary (db : DB) : List SSRow :=
  ((db.sales.map (fun s => (s.VendorNo, s.Brand))).dedup).map (fun k =>
    let grp := db.sales.filter (fun s => (s.VendorNo, s.Brand) = k)
    { VendorNo := k.1
      Brand := k.2
      TotalSalesQuantity := (grp.map (fun s => s.SalesQuantity)).sum
      TotalSalesDollars := (grp.map (fun s => s.SalesDollars)).sum
      TotalSalesPrice := (grp.map (fun s => s.SalesPrice)).sum
      TotalExciseTax := (grp.map (fun s => s.ExciseTax)).sum })

/-- The joined rows underlying `PurchaseSummary`: `purchases` restricted to
`PurchasePrice > 0`, inner-joined to `purchase_prices` on `Brand`. -/
def purchaseJoin (db : DB) : List (PurchaseRow × PriceRow) :=
  (db.purchases.filter (fun p => 0 < p.PurchasePrice)).flatMap (fun p =>
    (db.purchase_prices.filter (fun pp => pp.Brand = p.Brand)).map (fun pp => (p, pp)))

/-- The seven-column `GROUP BY` key of `PurchaseSummary`. -/
structure PSKey where
  VendorNumber : Int
  VendorName : TVal
  Brand : Int
  Description : TVal
  PurchasePrice : Int
  ActualPrice : Option Int
  Volume : TVal
deriving DecidableEq, Repr

/-- Key extraction for the `PurchaseSummary` grouping. -/
def psKey (x : PurchaseRow × PriceRow) : PSKey :=
  { VendorNumber := x.1.VendorNumber
    VendorName := x.1.VendorName
    Brand := x.1.Brand
    Description := x.1.Description
    PurchasePrice := x.1.PurchasePrice
    ActualPrice := x.2.Price
    Volume := x.2.Volume }

/-- Sub-aggregate `PurchaseSummary`: the join of `purchaseJoin`, grouped by `psKey`, with
sums of `Quantity` and `Dollars`. -/
def purchaseSummary (db : DB) : List PSRow :=
  let rows := purchaseJoin db
  ((rows.map psKey).dedup).map (fun k =>
    let grp := rows.filter (fun x => psKey x = k)
    { VendorNumber := k.VendorNumber
      VendorName := k.VendorName
      Brand := k.Brand
      Description := k.Description
      PurchasePrice := k.PurchasePrice
      ActualPrice := k.ActualPrice
      Volume := k.Volume
      TotalPurchaseQuantity := (grp.map (fun x => x.1.Quantity)).sum
      TotalPurchaseDollars := (grp.map (fun x => x.1.Dollars)).sum })

/-- One row of the summary query output (the frame `create_vendor_summary`
returns): the `PurchaseSummary` columns plus the left-joined sales and freight
aggregates, which are `NULL` (`none`) when no match exists. -/
structure SummaryRow where
  VendorNumber : Int
  VendorName : TVal
  Brand : Int
  Description : TVal
  PurchasePrice : Int
  ActualPrice : Option Int
  Volume : TVal
  TotalPurchaseQuantity : Int
  TotalPurchaseDollars : Int
  TotalSalesQuantity : Option Int
  TotalSalesDollars : Option Int
  TotalSalesPrice : Option Int
  TotalExciseTax : Option Int
  FreightCost : Option Int
deriving DecidableEq, Repr

/-- Assembly of one output row from a `PurchaseSummary` row and the (possibly
absent) matching `SalesSummary` and `FreightSummary` rows. -/
def mkSummaryRow (p : PSRow) (so : Option SSRow) (fo : Option FreightRow) : SummaryRow :=
  { VendorNumber := p.VendorNumber
    VendorName := p.VendorName
    Brand := p.Brand
    Description := p.Description
    PurchasePrice := p.PurchasePrice
    ActualPrice := p.ActualPrice
    Volume := p.Volume
    TotalPurchaseQuantity := p.TotalPurchaseQuantity
    TotalPurchaseDollars := p.TotalPurchaseDollars
    TotalSalesQuantity := so.map (fun s => s.TotalSalesQuantity)
    TotalSalesDollars := so.map (fun s => s.TotalSalesDollars)
    TotalSalesPrice := so.map (fun s => s.TotalSalesPrice)
    TotalExciseTax := so.map (fun s => s.TotalExciseTax)
    FreightCost := fo.map (fun f => f.FreightCost) }

/-- The two left joins for one `PurchaseSummary` row: each matching
`SalesSummary` row pairs with each matching `FreightSummary` row; an empty
match list contributes a single `NULL` (`none`) partner. -/
def joinRow (ss : List SSRow) (fs : List FreightRow) (p : PSRow) : List SummaryRow :=
  let sm := ss.filter (fun s => s.VendorNo = p.VendorNumber ∧ s.Brand = p.Brand)
  let fm := fs.filter (fun f => f.VendorNumber = p.VendorNumber)
  let sOpts := if sm.isEmpty then [(none : Option SSRow)] else sm.map some
  let fOpts := if fm.isEmpty then [(none : Option FreightRow)] else fm.map some
  sOpts.flatMap (fun so => fOpts.map (fun fo => mkSummaryRow p so fo))

/-- Function `create_vendor_summary` (get_vendor_summary.py, lines 13–76): the summary
query — `PurchaseSummary` left-joined to `SalesSummary` on
`(VendorNumber, Brand)` and to `FreightSummary` on `VendorNumber`, ordered by
`TotalPurchaseDollars` descending (tie order is unspecified in SQL; any sort
realising the ordering is a faithful model). -/
def create_vendor_summary (db : DB) : List SummaryRow :=
  List.insertionSort (fun a b => b.TotalPurchaseDollars ≤ a.TotalPurchaseDollars)
    ((purchaseSummary db).flatMap (joinRow (salesSummary db) (freightSummary db)))

/-- One row of the summary frame after the frame transformations of
`clean_data` lines 82–89: `Volume` cast to float, every missing value replaced
by 0, `VendorName` and `Description` passed through `str.strip` (which turns
the non-string cells produced by `fillna(0)` back into missing values). -/
structure CleanRow where
  VendorNumber : Int
  VendorName : TVal
  Brand : Int
  Description : TVal
  PurchasePrice : Int
  ActualPrice : Int
  Volume : FVal
  TotalPurchaseQuantity : Int
  TotalPurchaseDollars : Int
  TotalSalesQuantity : Int
  TotalSalesDollars : Int
  TotalSalesPrice : Int
  TotalExciseTax : Int
  FreightCost : Int
deriving DecidableEq, Repr

/-- The cell-wise effect of `clean_data` lines 82–89 on one summary row:
line 82 `df['Volume'].astype('float64')` (which can raise on a non-numeric
string), line 85 `df.fillna(0)`, lines 88–89 `str.strip()` on `VendorName`
and `Description`. -/
def cleanRow (r : SummaryRow) : Except String CleanRow := do
  let vol ← astypeFloat r.Volume
  pure
    { VendorNumber := r.VendorNumber
      VendorName := strStrip (fillnaT r.VendorName)
      Brand := r.Brand
      Description := strStrip (fillnaT r.Description)
      PurchasePrice := r.PurchasePrice
      ActualPrice := r.ActualPrice.getD 0
      Volume := fillnaF vol
      TotalPurchaseQuantity := r.TotalPurchaseQuantity
      TotalPurchaseDollars := r.TotalPurchaseDollars
      TotalSalesQuantity := r.TotalSalesQuantity.getD 0
      TotalSalesDollars := r.TotalSalesDollars.getD 0
      TotalSalesPrice := r.TotalSalesPrice.getD 0
      TotalExciseTax := r.TotalExciseTax.getD 0
      FreightCost := r.FreightCost.getD 0 }

/-- The frame transformations of `clean_data` lines 82–89 applied to a whole
summary frame (these lines act on the parameter `df`). -/
def cleanFrame (df : List SummaryRow) : Except String (List CleanRow) :=
  df.mapM cleanRow

/-- Function `clean_data` (get_vendor_summary.py, lines 79–97), modelled faithfully.
Lines 82–89 transform the parameter `df`.  Lines 92–95 then read the name
`vendor_sales_summary`, which is not a parameter and has no module-level
binding (in the source it is only a local variable of `create_vendor_summary`),
so evaluating any of those lines raises `NameError` and the function never
reaches its `return df`. -/
def clean_data (df : List SummaryRow) : Except String (List CleanRow) :=
  match cleanFrame df with
  | Except.error e => Except.error e
  | Except.ok _ => Except.error "NameError: name vendor_sales_summary is not defined"

/-- A summary row carrying the four computed columns of `clean_data`
lines 92–95. -/
structure RatioRow extends CleanRow where
  GrossProfit : Int
  ProfitMargin : FVal
  StockTurnover : FVal
  SalesToPurchaseRatio : FVal
deriving DecidableEq, Repr

/-- The column formulas of `clean_data` lines 92–95, applied to a cleaned
summary row (the position they occupy in the pipeline of spec section 4.2;
in the source these assignments name the stale `vendor_sales_summary`
variable, a defect recorded separately):
`GrossProfit = TotalSalesDollars - TotalPurchaseDollars`,
`ProfitMargin = (GrossProfit / TotalSalesDollars) * 100`,
`StockTurnover = TotalSalesQuantity / TotalPurchaseQuantity`,
`SalesToPurchaseRatio = TotalSalesDollars / TotalPurchaseDollars`. -/
def addComputedColumns (r : CleanRow) : RatioRow :=
  { toCleanRow := r
    GrossProfit := r.TotalSalesDollars - r.TotalPurchaseDollars
    ProfitMargin :=
      fmulC (fdivQ (r.TotalSalesDollars - r.TotalPurchaseDollars) r.TotalSalesDollars) 100
    StockTurnover := fdivQ r.TotalSalesQuantity r.TotalPurchaseQuantity
    SalesToPurchaseRatio := fdivQ r.TotalSalesDollars r.TotalPurchaseDollars }

/-- The `__main__` block of get_vendor_summary.py (lines 100–114) on a
database `db`.  The script as written cannot complete: line 7 passes the
misspelled keyword `filname` to `logging.basicConfig` (rejected at import),
lines 15 and 76 are ill-formed Python (a mis-indented statement and a
module-level `return`), line 109 passes the connection object instead of the
summary frame to `clean_data`, `clean_data` itself stops on the undefined
name `vendor_sales_summary`, and line 113 calls the undefined `ingest.db`.
The model charges the failure to the cleaning call, the first failing step of
the data flow it embeds. -/
def mainVendorSummary (db : DB) : Except String (List CleanRow) :=
  clean_data (create_vendor_summary db)

/-- A parsed delimited-text file: `pd.read_csv`'s output, a header row and the
data rows in file order. -/
structure CSVTable where
  columns : List String
  rows : List (List String)
deriving DecidableEq, Repr

/-- The relational store of the loader, keyed by table name. -/
def Store : Type := String → Option CSVTable

/-- Function `ingest_db` (ingestion_db.py, lines 20–21):
`df.to_sql(table_name, con=engine, if_exists='replace', index=False)` — the
frame is written under `table_name` replacing any prior table of that name,
unchanged (column order preserved, no index column added). -/
def ingest_db (df : CSVTable) (table_name : String) (store : Store) : Store :=
  fun n => if n = table_name then some df else store n

/-- Membership of the character pattern `pat` as a contiguous run of `l`
(model of Python's substring operator `in`). -/
def startsWithChars : List Char → List Char → Bool
  | [], _ => true
  | _ :: _, [] => false
  | p :: ps, c :: cs => p = c && startsWithChars ps cs

/-- Substring occurrence check over character lists. -/
def hasSubstrChars (pat : List Char) : List Char → Bool
  | [] => startsWithChars pat []
  | c :: cs => startsWithChars pat (c :: cs) || hasSubstrChars pat cs

/-- The loader's file test `'.csv' in file` (line 27): the file NAME CONTAINS
the four characters `.csv` anywhere. -/
def containsCsv (file : String) : Bool :=
  hasSubstrChars ".csv".toList file.toList

/-- The loader's table-name computation `file[:-4]` (line 30): the file name
with its last four characters removed (empty when the name has at most four
characters). -/
def pyDropRight4 (file : String) : String :=
  String.mk (file.toList.take (file.toList.length - 4))

/-- Function `load_raw_data` (ingestion_db.py, lines 24–35) on a directory listing.
The directory is modelled as the list of its files paired with their parsed
contents (`pd.read_csv` is deterministic, so a file stands for its parse).
Each file whose name contains `.csv` is ingested under `file[:-4]`. -/
def load_raw_data (dir : List (String × CSVTable)) (store : Store) : Store :=
  dir.foldl
    (fun st f => if containsCsv f.1 then ingest_db f.2 (pyDropRight4 f.1) st else st)
    store

/-- Modelled from the spec's words, for comparison with `pyDropRight4`: a
table "named after the file (extension stripped)" — the file name with its
final dot and everything after it removed (unchanged when it has no dot). -/
def specTableName (file : String) : String :=
  let cs := file.toList
  if '.' ∈ cs then
    String.mk (((cs.reverse.dropWhile (fun c => ¬ c = '.')).drop 1).reverse)
  else file

/-- The last write `load_raw_data` performs for table name `n`: later files
override earlier ones. -/
def lastWrite : List (String × CSVTable) → String → Option CSVTable
  | [], _ => none
  | f :: dir, n =>
    match lastWrite dir n with
    | some t => some t
    | none => if containsCsv f.1 = true ∧ pyDropRight4 f.1 = n then some f.2 else none

/-- Grouping key of `SalesSummary` rows of a summary row, used in the join lemmas. -/
def ssKey (s : SSRow) : Int × Int := (s.VendorNo, s.Brand)

/-- Count of query-output rows bearing a given (vendor, brand) pair. -/
def pairCount (l : List SummaryRow) (v b : Int) : Nat :=
  l.countP (fun r => r.VendorNumber = v ∧ r.Brand = b)

/-- Count of `PurchaseSummary` rows bearing a given (vendor, brand) pair. -/
def psPairCount (l : List PSRow) (v b : Int) : Nat :=
  l.countP (fun r => r.VendorNumber = v ∧ r.Brand = b)

/-- Example database: one purchase line with a price reference, one invoice,
one matching sale. -/
def exDB : DB :=
  { purchases := [{ VendorNumber := 1, VendorName := TVal.tstr "VendorA", Brand := 10,
                    Description := TVal.tstr "Desc", PurchasePrice := 5, Quantity := 2,
                    Dollars := 100 }]
    purchase_prices := [{ Brand := 10, Price := some 6, Volume := TVal.tnum 750 }]
    vendor_invoice := [{ VendorNumber := 1, Freight := 20 }]
    sales := [{ VendorNo := 1, Brand := 10, SalesQuantity := 3, SalesDollars := 150,
                SalesPrice := 50, ExciseTax := 7 }] }

/-- The single row of the summary query on `exDB`. -/
def exRow : SummaryRow :=
  { VendorNumber := 1, VendorName := TVal.tstr "VendorA", Brand := 10,
    Description := TVal.tstr "Desc", PurchasePrice := 5, ActualPrice := some 6,
    Volume := TVal.tnum 750, TotalPurchaseQuantity := 2, TotalPurchaseDollars := 100,
    TotalSalesQuantity := some 3, TotalSalesDollars := some 150,
    TotalSalesPrice := some 50, TotalExciseTax := some 7, FreightCost := some 20 }

/-- The row of `exDB` after the cleaning transformations. -/
def exClean : CleanRow :=
  { VendorNumber := 1, VendorName := TVal.tstr "VendorA", Brand := 10,
    Description := TVal.tstr "Desc", PurchasePrice := 5, ActualPrice := 6,
    Volume := FVal.fin 750, TotalPurchaseQuantity := 2, TotalPurchaseDollars := 100,
    TotalSalesQuantity := 3, TotalSalesDollars := 150,
    TotalSalesPrice := 50, TotalExciseTax := 7, FreightCost := 20 }

/-- Example database with a purchase but no sales and no invoices. -/
def db6 : DB :=
  { purchases := [{ VendorNumber := 2, VendorName := TVal.tstr "B", Brand := 4,
                    Description := TVal.tstr "d", PurchasePrice := 3, Quantity := 1,
                    Dollars := 30 }]
    purchase_prices := [{ Brand := 4, Price := some 4, Volume := TVal.tnum 50 }]
    vendor_invoice := []
    sales := [] }

/-- The single row of the summary query on `db6` (sales and freight columns
are `NULL`). -/
def row6 : SummaryRow :=
  { VendorNumber := 2, VendorName := TVal.tstr "B", Brand := 4,
    Description := TVal.tstr "d", PurchasePrice := 3, ActualPrice := some 4,
    Volume := TVal.tnum 50, TotalPurchaseQuantity := 1, TotalPurchaseDollars := 30,
    TotalSalesQuantity := none, TotalSalesDollars := none,
    TotalSalesPrice := none, TotalExciseTax := none, FreightCost := none }

/-- Row `row6` after cleaning: the null aggregates became 0. -/
def clean6 : CleanRow :=
  { VendorNumber := 2, VendorName := TVal.tstr "B", Brand := 4,
    Description := TVal.tstr "d", PurchasePrice := 3, ActualPrice := 4,
    Volume := FVal.fin 50, TotalPurchaseQuantity := 1, TotalPurchaseDollars := 30,
    TotalSalesQuantity := 0, TotalSalesDollars := 0,
    TotalSalesPrice := 0, TotalExciseTax := 0, FreightCost := 0 }

/-- Example database in which the pair (vendor 1, brand 1) occupies two
`PurchaseSummary` rows (two descriptions with different purchase prices). -/
def c4db : DB :=
  { purchases := [{ VendorNumber := 1, VendorName := TVal.tstr "V", Brand := 1,
                    Description := TVal.tstr "d1", PurchasePrice := 2, Quantity := 1,
                    Dollars := 10 },
                  { VendorNumber := 1, VendorName := TVal.tstr "V", Brand := 1,
                    Description := TVal.tstr "d2", PurchasePrice := 3, Quantity := 1,
                    Dollars := 20 }]
    purchase_prices := [{ Brand := 1, Price := some 5, Volume := TVal.tnum 100 }]
    vendor_invoice := []
    sales := [] }

/-- A cleaned row whose three ratio denominators are all zero. -/
def czero : CleanRow :=
  { VendorNumber := 9, VendorName := TVal.tstr "z", Brand := 9,
    Description := TVal.tstr "z", PurchasePrice := 1, ActualPrice := 1,
    Volume := FVal.fin 1, TotalPurchaseQuantity := 0, TotalPurchaseDollars := 0,
    TotalSalesQuantity := 0, TotalSalesDollars := 0,
    TotalSalesPrice := 0, TotalExciseTax := 0, FreightCost := 0 }

/-- A summary row whose `VendorName` is missing. -/
def r10 : SummaryRow :=
  { VendorNumber := 3, VendorName := TVal.tnull, Brand := 7,
    Description := TVal.tstr "ok", PurchasePrice := 2, ActualPrice := some 2,
    Volume := TVal.tnum 1, TotalPurchaseQuantity := 1, TotalPurchaseDollars := 2,
    TotalSalesQuantity := none, TotalSalesDollars := none,
    TotalSalesPrice := none, TotalExciseTax := none, FreightCost := none }

/-- Row `r10` after cleaning: `fillna(0)` turned the missing `VendorName` into the
number 0, then `str.strip()` turned that non-string back into a missing value. -/
def c10 : CleanRow :=
  { VendorNumber := 3, VendorName := TVal.tnull, Brand := 7,
    Description := TVal.tstr "ok", PurchasePrice := 2, ActualPrice := 2,
    Volume := FVal.fin 1, TotalPurchaseQuantity := 1, TotalPurchaseDollars := 2,
    TotalSalesQuantity := 0, TotalSalesDollars := 0,
    TotalSalesPrice := 0, TotalExciseTax := 0, FreightCost := 0 }

/-- A small parsed CSV file used by the loader examples. -/
def tW : CSVTable := { columns := ["c"], rows := [["1"]] }

/-- The empty relational store. -/
def emptyStore : Store := fun _ => none

/-- A directory with one file whose name contains `.csv` without ending in it. -/
def dirA : List (String × CSVTable) := [("a.csvdata", tW)]

/-- A directory with one ordinary `.csv` file. -/
def dirX : List (String × CSVTable) := [("x.csv", tW)]

theorem load_raw_data_cons (f : String × CSVTable) (dir : List (String × CSVTable))
    (store : Store) :
    load_raw_data (f :: dir) store =
      load_raw_data dir
        (if containsCsv f.1 then ingest_db f.2 (pyDropRight4 f.1) store else store) := rfl

theorem lastWrite_cons (f : String × CSVTable) (dir : List (String × CSVTable)) (n : String) :
    lastWrite (f :: dir) n =
      match lastWrite dir n with
      | some t => some t
      | none => if containsCsv f.1 = true ∧ pyDropRight4 f.1 = n then some f.2 else none := rfl

theorem load_raw_lookup (dir : List (String × CSVTable)) :
    ∀ (store : Store) (n : String),
      load_raw_data dir store n =
        match lastWrite dir n with
        | some t => some t
        | none => store n := by
  induction dir with
  | nil => intro store n; rfl
  | cons f dir ih =>
    intro store n
    rw [load_raw_data_cons, ih, lastWrite_cons]
    cases hl : lastWrite dir n with
    | some t => rfl
    | none =>
      simp only [ingest_db]
      by_cases hc : containsCsv f.1 = true
      · by_cases hn : pyDropRight4 f.1 = n
        · subst hn
          simp [hc, ingest_db]
        · simp [hc, hn, Ne.symm hn, ingest_db]
      · simp only [Bool.not_eq_true] at hc
        simp [hc]

theorem lastWrite_mem {dir : List (String × CSVTable)} {n : String} {t2 : CSVTable}
    (h : lastWrite dir n = some t2) :
    ∃ nm, (nm, t2) ∈ dir ∧ containsCsv nm = true ∧ pyDropRight4 nm = n := by
  induction dir with
  | nil => cases h
  | cons f dir ih =>
    rw [lastWrite_cons] at h
    cases hl : lastWrite dir n with
    | some t =>
      rw [hl] at h
      cases h
      obtain ⟨nm, hm, hc, hd⟩ := ih hl
      exact ⟨nm, List.mem_cons_of_mem f hm, hc, hd⟩
    | none =>
      rw [hl] at h
      by_cases hcond : containsCsv f.1 = true ∧ pyDropRight4 f.1 = n
      · rw [if_pos hcond] at h
        cases h
        exact ⟨f.1, by simp, hcond.1, hcond.2⟩
      · rw [if_neg hcond] at h
        cases h

theorem lastWrite_isSome_of_mem {dir : List (String × CSVTable)} {nm : String} {t : CSVTable}
    (hm : (nm, t) ∈ dir) (hc : containsCsv nm = true) :
    (lastWrite dir (pyDropRight4 nm)).isSome = true := by
  induction dir with
  | nil => cases hm
  | cons f dir ih =>
    rw [lastWrite_cons]
    rcases List.mem_cons.mp hm with he | ht
    · subst he
      cases hl : lastWrite dir (pyDropRight4 nm) with
      | some t2 => rfl
      | none => simp [hc]
    · have hs := ih ht
      cases hl : lastWrite dir (pyDropRight4 nm) with
      | some t2 => rfl
      | none => rw [hl] at hs; cases hs

/-- Claim C8 counterexample: the file `a.csvdata` contains the `.csv` marker,
so the loader ingests it, but the table it writes is named `a.csv`
(`file[:-4]`), not `a` (the name with the extension stripped): after the run
no table named `a` exists while `a.csv` holds the parsed contents. -/
theorem table_name_not_extension_stripped :
    containsCsv "a.csvdata" = true ∧
    specTableName "a.csvdata" = "a" ∧
    load_raw_data dirA emptyStore "a" = none ∧
    load_raw_data dirA emptyStore "a.csv" = some tW :=
  ⟨rfl, rfl, rfl, rfl⟩

/-- Claim C8 (amended): for every file in the directory whose name contains
`.csv`, the loader writes parsed file contents into the table named by the
file name with its last four characters removed (for names ending in `.csv`
this coincides with stripping the extension), replacing any prior table of
that name; the stored value is the parsed contents of a file with that
derived name, unchanged (column order preserved, no index column). -/
theorem csv_file_written_under_truncated_name
    (dir : List (String × CSVTable)) (store : Store) (name : String) (t : CSVTable)
    (hmem : (name, t) ∈ dir) (hcsv : containsCsv name = true) :
    ∃ name2 t2, (name2, t2) ∈ dir ∧ containsCsv name2 = true ∧
      pyDropRight4 name2 = pyDropRight4 name ∧
      load_raw_data dir store (pyDropRight4 name) = some t2 := by
  have hs := lastWrite_isSome_of_mem hmem hcsv
  obtain ⟨t2, ht2⟩ := Option.isSome_iff_exists.mp hs
  obtain ⟨name2, hm2, hc2, hd2⟩ := lastWrite_mem ht2
  refine ⟨name2, t2, hm2, hc2, hd2, ?_⟩
  rw [load_raw_lookup, ht2]

/-- Witness for the amended C8 theorem at the concrete directory `dirX`. -/
theorem csv_file_written_under_truncated_name_w :
    load_raw_data dirX emptyStore (pyDropRight4 "x.csv") = some tW := by
  obtain ⟨n2, t2, hm, hc, hd, hl⟩ :=
    csv_file_written_under_truncated_name dirX emptyStore "x.csv" tW (by decide) (by decide)
  have h2 := List.mem_singleton.mp hm
  rw [Prod.mk.injEq] at h2
  obtain ⟨e1, e2⟩ := h2
  subst e1
  subst e2
  exact hl

/-- Claim C9: re-running the loader on the same directory listing is
idempotent — every table holds the same contents after two consecutive runs
as after one (replace semantics: each file's write depends only on the file,
not on the prior store). -/
theorem load_raw_data_idempotent (dir : List (String × CSVTable)) (store : Store)
    (n : String) :
    load_raw_data dir (load_raw_data dir store) n = load_raw_data dir store n := by
  rw [load_raw_lookup, load_raw_lookup]
  cases lastWrite dir n <;> rfl

/-- Claim C1 (evidence of the code bug): on a well-formed summary frame the
frame transformations of lines 82–89 succeed, but `clean_data` then raises
`NameError` at line 92 — it assigns the computed columns to the undefined
module-global `vendor_sales_summary` instead of its parameter `df`, so the
table it was to return, with the four appended columns, is never produced. -/
theorem clean_data_never_returns_computed_columns :
    (∃ out, cleanFrame [exRow] = Except.ok out) ∧
    clean_data [exRow] =
      Except.error "NameError: name vendor_sales_summary is not defined" :=
  ⟨⟨_, rfl⟩, rfl⟩

/-- Claim C3 (evidence of the code bug): the standalone `__main__` run of the
Vendor Summary Builder never completes on any database — the cleaning call
fails (undefined global `vendor_sales_summary`; the surrounding script also
mis-indents line 15, places `return` at module level, passes the misspelled
`filname` keyword to `logging.basicConfig`, hands the connection to
`clean_data`, and calls the undefined `ingest.db`), so the
`vendor_sales_summary` table is never written. -/
theorem main_vendor_summary_never_completes (db : DB) :
    ∃ e, mainVendorSummary db = Except.error e := by
  unfold mainVendorSummary clean_data
  cases h : cleanFrame (create_vendor_summary db) with
  | error e => exact ⟨e, by simp [h]⟩
  | ok l =>
    exact ⟨"NameError: name vendor_sales_summary is not defined", by simp [h]⟩

theorem fdivQ_zero_den (a : Int) :
    fdivQ a 0 = FVal.pinf ∨ fdivQ a 0 = FVal.ninf ∨ fdivQ a 0 = FVal.nan := by
  rcases lt_trichotomy 0 a with h | h | h
  · left; simp [fdivQ, h]
  · right; right; simp [fdivQ, ← h]
  · right; left; simp [fdivQ, h, not_lt_of_gt h]

theorem fmulC_special {v : FVal}
    (h : v = FVal.pinf ∨ v = FVal.ninf ∨ v = FVal.nan) (c : ℚ) :
    fmulC v c = FVal.pinf ∨ fmulC v c = FVal.ninf ∨ fmulC v c = FVal.nan := by
  rcases h with h | h | h <;> subst h
  · left; rfl
  · right; left; rfl
  · right; right; rfl

/-- Claim C5: the ratio formulas carry no zero-denominator guard — in a frame
augmented by the computed columns, a row with `TotalSalesDollars = 0` has an
infinite or NaN `ProfitMargin`, a row with `TotalPurchaseQuantity = 0` has an
infinite or NaN `StockTurnover`, and a row with `TotalPurchaseDollars = 0`
has an infinite or NaN `SalesToPurchaseRatio`; no error is raised and no
default is substituted. -/
theorem ratio_columns_unguarded_zero_denominators
    (t : List CleanRow) (r : RatioRow) (hr : r ∈ t.map addComputedColumns) :
    (r.toCleanRow.TotalSalesDollars = 0 →
       r.ProfitMargin = FVal.pinf ∨ r.ProfitMargin = FVal.ninf ∨
       r.ProfitMargin = FVal.nan) ∧
    (r.toCleanRow.TotalPurchaseQuantity = 0 →
       r.StockTurnover = FVal.pinf ∨ r.StockTurnover = FVal.ninf ∨
       r.StockTurnover = FVal.nan) ∧
    (r.toCleanRow.TotalPurchaseDollars = 0 →
       r.SalesToPurchaseRatio = FVal.pinf ∨ r.SalesToPurchaseRatio = FVal.ninf ∨
       r.SalesToPurchaseRatio = FVal.nan) := by
  obtain ⟨c, _, rfl⟩ := List.mem_map.mp hr
  refine ⟨fun h => ?_, fun h => ?_, fun h => ?_⟩
  · have hz : c.TotalSalesDollars = 0 := h
    simp only [addComputedColumns, hz]
    exact fmulC_special (fdivQ_zero_den _) 100
  · have hz : c.TotalPurchaseQuantity = 0 := h
    simp only [addComputedColumns, hz]
    exact fdivQ_zero_den _
  · have hz : c.TotalPurchaseDollars = 0 := h
    simp only [addComputedColumns, hz]
    exact fdivQ_zero_den _

/-- Witness for the C5 theorem at the all-zero-denominators row `czero`. -/
theorem ratio_columns_unguarded_zero_denominators_w :
    ((addComputedColumns czero).ProfitMargin = FVal.pinf ∨
     (addComputedColumns czero).ProfitMargin = FVal.ninf ∨
     (addComputedColumns czero).ProfitMargin = FVal.nan) ∧
    ((addComputedColumns czero).StockTurnover = FVal.pinf ∨
     (addComputedColumns czero).StockTurnover = FVal.ninf ∨
     (addComputedColumns czero).StockTurnover = FVal.nan) ∧
    ((addComputedColumns czero).SalesToPurchaseRatio = FVal.pinf ∨
     (addComputedColumns czero).SalesToPurchaseRatio = FVal.ninf ∨
     (addComputedColumns czero).SalesToPurchaseRatio = FVal.nan) := by
  have h := ratio_columns_unguarded_zero_denominators [czero]
    (addComputedColumns czero) (by decide)
  exact ⟨h.1 rfl, h.2.1 rfl, h.2.2 rfl⟩

/-- Claim C10: the cleaning step does not guarantee a null-free text column —
for a summary frame whose `VendorName` is missing, `fillna(0)` first turns the
missing value into the number 0 and `str.strip()` then maps that non-string
back to a missing value, so the cleaned frame still contains a null
`VendorName`. -/
theorem cleaning_can_leave_null_text :
    ∃ df out, cleanFrame df = Except.ok out ∧
      ∃ c, c ∈ out ∧ c.VendorName = TVal.tnull :=
  ⟨[r10], [c10], rfl, c10, by decide, rfl⟩

theorem mem_create_vendor_summary {db : DB} {r : SummaryRow}
    (hr : r ∈ create_vendor_summary db) :
    ∃ p ∈ purchaseSummary db, r ∈ joinRow (salesSummary db) (freightSummary db) p := by
  unfold create_vendor_summary at hr
  have hperm := List.perm_insertionSort
    (fun a b => b.TotalPurchaseDollars ≤ a.TotalPurchaseDollars)
    ((purchaseSummary db).flatMap (joinRow (salesSummary db) (freightSummary db)))
  exact List.mem_flatMap.mp (hperm.subset hr)

theorem mem_joinRow_cases {ss : List SSRow} {fs : List FreightRow} {p : PSRow}
    {r : SummaryRow} (hr : r ∈ joinRow ss fs p) :
    ∃ so fo, r = mkSummaryRow p so fo ∧
      (so = none ∨ ∃ s, so = some s ∧ s ∈ ss ∧
        s.VendorNo = p.VendorNumber ∧ s.Brand = p.Brand) := by
  simp only [joinRow] at hr
  obtain ⟨so, hso, hr2⟩ := List.mem_flatMap.mp hr
  obtain ⟨fo, _, rfl⟩ := List.mem_map.mp hr2
  refine ⟨so, fo, rfl, ?_⟩
  by_cases he : (ss.filter (fun s => s.VendorNo = p.VendorNumber ∧ s.Brand = p.Brand)).isEmpty
  · rw [if_pos he] at hso
    exact Or.inl (List.mem_singleton.mp hso)
  · rw [if_neg he] at hso
    obtain ⟨s, hs, rfl⟩ := List.mem_map.mp hso
    have hf := List.mem_filter.mp hs
    have hcond := of_decide_eq_true hf.2
    exact Or.inr ⟨s, rfl, hf.1, hcond.1, hcond.2⟩

theorem cleanRow_ok_fields {r : SummaryRow} {c : CleanRow}
    (hc : cleanRow r = Except.ok c) :
    c.TotalSalesQuantity = r.TotalSalesQuantity.getD 0 ∧
    c.TotalSalesDollars = r.TotalSalesDollars.getD 0 ∧
    c.TotalSalesPrice = r.TotalSalesPrice.getD 0 ∧
    c.TotalExciseTax = r.TotalExciseTax.getD 0 := by
  unfold cleanRow at hc
  cases hvol : astypeFloat r.Volume with
  | error e =>
    rw [hvol] at hc
    cases hc
  | ok vol =>
    rw [hvol] at hc
    cases hc
    exact ⟨rfl, rfl, rfl, rfl⟩

/-- Claim C2: through the builder pipeline (query, then the cleaning
transformations, then the computed columns), every row's `GrossProfit` equals
its `TotalSalesDollars` minus its `TotalPurchaseDollars`, exactly. -/
theorem gross_profit_exact (db : DB) (out : List CleanRow)
    (_hok : cleanFrame (create_vendor_summary db) = Except.ok out)
    (r : RatioRow) (hr : r ∈ out.map addComputedColumns) :
    r.GrossProfit =
      r.toCleanRow.TotalSalesDollars - r.toCleanRow.TotalPurchaseDollars := by
  obtain ⟨c, _, rfl⟩ := List.mem_map.mp hr
  rfl

/-- Witness for the C2 theorem on the one-row database `exDB`. -/
theorem gross_profit_exact_w :
    (addComputedColumns exClean).GrossProfit =
      (addComputedColumns exClean).toCleanRow.TotalSalesDollars -
      (addComputedColumns exClean).toCleanRow.TotalPurchaseDollars :=
  gross_profit_exact exDB [exClean] (by rfl) (addComputedColumns exClean)
    (List.mem_map_of_mem addComputedColumns (by decide))

/-- Claim C6: an output row of the summary query whose (vendor, brand) pair
has no matching `SalesSummary` row carries `NULL` sales aggregates, and the
cleaning step turns exactly those into the number 0. -/
theorem no_sales_match_zero_after_clean (db : DB) (r : SummaryRow) (c : CleanRow)
    (hr : r ∈ create_vendor_summary db)
    (hno : ∀ s ∈ salesSummary db, ¬ (s.VendorNo = r.VendorNumber ∧ s.Brand = r.Brand))
    (hc : cleanRow r = Except.ok c) :
    r.TotalSalesQuantity = none ∧ r.TotalSalesDollars = none ∧
    r.TotalSalesPrice = none ∧ r.TotalExciseTax = none ∧
    c.TotalSalesQuantity = 0 ∧ c.TotalSalesDollars = 0 ∧
    c.TotalSalesPrice = 0 ∧ c.TotalExciseTax = 0 := by
  obtain ⟨p, hp, hj⟩ := mem_create_vendor_summary hr
  obtain ⟨so, fo, hreq, hcase⟩ := mem_joinRow_cases hj
  subst hreq
  have hsonone : so = none := by
    rcases hcase with h | ⟨s, hseq, hsmem, hv, hb⟩
    · exact h
    · exact absurd ⟨hv, hb⟩ (hno s hsmem)
  subst hsonone
  obtain ⟨h1, h2, h3, h4⟩ := cleanRow_ok_fields hc
  exact ⟨rfl, rfl, rfl, rfl, h1.trans rfl, h2.trans rfl, h3.trans rfl, h4.trans rfl⟩

/-- Witness for the C6 theorem on `db6`, whose single output row has no sales
match. -/
theorem no_sales_match_zero_after_clean_w :
    row6.TotalSalesQuantity = none ∧ row6.TotalSalesDollars = none ∧
    row6.TotalSalesPrice = none ∧ row6.TotalExciseTax = none ∧
    clean6.TotalSalesQuantity = 0 ∧ clean6.TotalSalesDollars = 0 ∧
    clean6.TotalSalesPrice = 0 ∧ clean6.TotalExciseTax = 0 :=
  no_sales_match_zero_after_clean db6 row6 clean6 (by decide) (by decide) (by rfl)

theorem mem_purchaseSummary_pos {db : DB} {p : PSRow}
    (hp : p ∈ purchaseSummary db) : 0 < p.PurchasePrice := by
  simp only [purchaseSummary] at hp
  obtain ⟨k, hk, rfl⟩ := List.mem_map.mp hp
  have hk2 : k ∈ (purchaseJoin db).map psKey := List.mem_dedup.mp hk
  obtain ⟨x, hx, rfl⟩ := List.mem_map.mp hk2
  simp only [purchaseJoin] at hx
  obtain ⟨pr, hpr, hx2⟩ := List.mem_flatMap.mp hx
  obtain ⟨pp, _, rfl⟩ := List.mem_map.mp hx2
  exact of_decide_eq_true (List.mem_filter.mp hpr).2

/-- Claim C7: every row of the summary query output has a strictly positive
`PurchasePrice`, and the query result is unchanged when the purchases table is
restricted to its positive-price rows beforehand — non-positive-price purchase
rows contribute to no output row. -/
theorem output_purchase_price_positive (db : DB) (r : SummaryRow)
    (hr : r ∈ create_vendor_summary db) :
    0 < r.PurchasePrice ∧
    create_vendor_summary
        { db with purchases := db.purchases.filter (fun p => 0 < p.PurchasePrice) } =
      create_vendor_summary db := by
  constructor
  · obtain ⟨p, hp, hj⟩ := mem_create_vendor_summary hr
    obtain ⟨so, fo, hreq, _⟩ := mem_joinRow_cases hj
    subst hreq
    exact mem_purchaseSummary_pos hp
  · have hfilter :
        ({ db with purchases := db.purchases.filter (fun p => 0 < p.PurchasePrice) } :
          DB).purchases.filter (fun p => 0 < p.PurchasePrice) =
        db.purchases.filter (fun p => 0 < p.PurchasePrice) := by
      show (db.purchases.filter _).filter _ = _
      rw [List.filter_filter]
      simp
    unfold create_vendor_summary purchaseSummary purchaseJoin salesSummary freightSummary
    rw [hfilter]

/-- Witness for the C7 theorem on `exDB` and its output row. -/
theorem output_purchase_price_positive_w :
    0 < exRow.PurchasePrice ∧
    create_vendor_summary
        { exDB with purchases := exDB.purchases.filter (fun p => 0 < p.PurchasePrice) } =
      create_vendor_summary exDB :=
  output_purchase_price_positive exDB exRow (by decide)

theorem map_ssKey_salesSummary (db : DB) :
    (salesSummary db).map ssKey =
      (db.sales.map (fun s => (s.VendorNo, s.Brand))).dedup := by
  unfold salesSummary
  rw [List.map_map]
  exact List.map_id'' (fun k => by cases k; rfl) _

theorem nodup_ssKeys (db : DB) : ((salesSummary db).map ssKey).Nodup := by
  rw [map_ssKey_salesSummary]
  exact List.nodup_dedup _

theorem map_vn_freightSummary (db : DB) :
    (freightSummary db).map (fun f => f.VendorNumber) =
      (db.vendor_invoice.map (fun r => r.VendorNumber)).dedup := by
  unfold freightSummary
  rw [List.map_map]
  exact List.map_id'' (fun v => rfl) _

theorem nodup_fsKeys (db : DB) :
    ((freightSummary db).map (fun f => f.VendorNumber)).Nodup := by
  rw [map_vn_freightSummary]
  exact List.nodup_dedup _

theorem length_filter_le_one_of_nodup_map {α κ : Type} [DecidableEq κ]
    (f : α → κ) (k : κ) :
    ∀ l : List α, (l.map f).Nodup → (l.filter (fun x => f x = k)).length ≤ 1 := by
  intro l
  induction l with
  | nil => intro _; simp
  | cons a t ih =>
    intro h
    rw [List.map_cons, List.nodup_cons] at h
    rw [List.filter_cons]
    by_cases hk : f a = k
    · rw [if_pos (decide_eq_true hk)]
      have hnil : t.filter (fun x => f x = k) = [] := by
        rw [List.filter_eq_nil_iff]
        intro x hx
        simp only [decide_eq_true_eq]
        intro hfx
        exact h.1 (hfx.trans hk.symm ▸ List.mem_map_of_mem f hx)
      rw [hnil]
      simp
    · rw [if_neg (by simpa using hk)]
      exact ih h.2

theorem length_opts_one {α : Type} {l : List α} (h : l.length ≤ 1) :
    (if l.isEmpty then [(none : Option α)] else l.map some).length = 1 := by
  cases l with
  | nil => rfl
  | cons a t =>
    cases t with
    | nil => rfl
    | cons b u =>
      exfalso
      simp only [List.length_cons] at h
      omega

theorem joinRow_all_pair {ss : List SSRow} {fs : List FreightRow} {p : PSRow}
    {r : SummaryRow} (hr : r ∈ joinRow ss fs p) :
    r.VendorNumber = p.VendorNumber ∧ r.Brand = p.Brand := by
  obtain ⟨so, fo, hreq, _⟩ := mem_joinRow_cases hr
  subst hreq
  exact ⟨rfl, rfl⟩

theorem sm_length_le_one {ss : List SSRow} (hss : (ss.map ssKey).Nodup) (p : PSRow) :
    (ss.filter (fun s => s.VendorNo = p.VendorNumber ∧ s.Brand = p.Brand)).length ≤ 1 := by
  have h := length_filter_le_one_of_nodup_map ssKey (p.VendorNumber, p.Brand) ss hss
  have hconv :
      ss.filter (fun s => s.VendorNo = p.VendorNumber ∧ s.Brand = p.Brand) =
        ss.filter (fun s => ssKey s = (p.VendorNumber, p.Brand)) := by
    apply List.filter_congr
    intro s _
    simp [ssKey, Prod.ext_iff]
  rw [hconv]
  exact h

theorem fm_length_le_one {fs : List FreightRow}
    (hfs : ((fs.map (fun f => f.VendorNumber)).Nodup)) (p : PSRow) :
    (fs.filter (fun f => f.VendorNumber = p.VendorNumber)).length ≤ 1 :=
  length_filter_le_one_of_nodup_map (fun f => f.VendorNumber) p.VendorNumber fs hfs

theorem joinRow_length_one {ss : List SSRow} {fs : List FreightRow}
    (hss : (ss.map ssKey).Nodup) (hfs : ((fs.map (fun f => f.VendorNumber)).Nodup))
    (p : PSRow) : (joinRow ss fs p).length = 1 := by
  have hs1 := length_opts_one (sm_length_le_one hss p)
  have hf1 := length_opts_one (fm_length_le_one hfs p)
  simp only [joinRow, List.length_flatMap, List.map_map]
  have : ∀ so : Option SSRow,
      ((List.length ∘ fun so =>
          (if (fs.filter (fun f => f.VendorNumber = p.VendorNumber)).isEmpty
            then [(none : Option FreightRow)]
            else (fs.filter (fun f => f.VendorNumber = p.VendorNumber)).map some).map
            (fun fo => mkSummaryRow p so fo)) so) = 1 := by
    intro so
    simp only [Function.comp, List.length_map]
    exact hf1
  rw [List.map_congr_left (fun so _ => this so)]
  rw [List.map_const']
  rw [List.sum_replicate, smul_eq_mul, hs1, mul_one]

theorem pairCount_joinRow {ss : List SSRow} {fs : List FreightRow}
    (hss : (ss.map ssKey).Nodup) (hfs : ((fs.map (fun f => f.VendorNumber)).Nodup))
    (p : PSRow) (v b : Int) :
    pairCount (joinRow ss fs p) v b =
      if p.VendorNumber = v ∧ p.Brand = b then 1 else 0 := by
  by_cases hm : p.VendorNumber = v ∧ p.Brand = b
  · rw [if_pos hm]
    unfold pairCount
    rw [List.countP_eq_length.mpr, joinRow_length_one hss hfs p]
    intro r hr
    obtain ⟨h1, h2⟩ := joinRow_all_pair hr
    simp [h1, h2, hm.1, hm.2]
  · rw [if_neg hm]
    unfold pairCount
    rw [List.countP_eq_zero.mpr]
    intro r hr
    obtain ⟨h1, h2⟩ := joinRow_all_pair hr
    simp only [h1, h2, decide_eq_true_eq]
    exact hm

theorem pairCount_flatMap {ss : List SSRow} {fs : List FreightRow}
    (hss : (ss.map ssKey).Nodup) (hfs : ((fs.map (fun f => f.VendorNumber)).Nodup))
    (v b : Int) :
    ∀ ps : List PSRow,
      pairCount (ps.flatMap (joinRow ss fs)) v b = psPairCount ps v b := by
  intro ps
  induction ps with
  | nil => rfl
  | cons p t ih =>
    show pairCount (joinRow ss fs p ++ t.flatMap (joinRow ss fs)) v b = _
    unfold pairCount psPairCount at *
    rw [List.countP_append, List.countP_cons]
    rw [show (joinRow ss fs p).countP (fun r => r.VendorNumber = v ∧ r.Brand = b) =
          pairCount (joinRow ss fs p) v b from rfl]
    rw [pairCount_joinRow hss hfs p v b, ih]
    simp [add_comm]

/-- Claim C4 counterexample: in `c4db` the pair (vendor 1, brand 1) is present
in `PurchaseSummary` — on two rows, split by description and purchase price —
and appears twice, not exactly once, in the query output. -/
theorem pair_appears_twice_in_output :
    psPairCount (purchaseSummary c4db) 1 1 = 2 ∧
    pairCount (create_vendor_summary c4db) 1 1 = 2 :=
  ⟨rfl, rfl⟩

/-- Claim C4 (amended): every (vendor, brand) pair appears in the query output
exactly as many times as it appears in `PurchaseSummary` — at least once when
present, and exactly once precisely when `PurchaseSummary` holds a single row
for the pair (the finer group key — description, price, volume — can split a
pair across several rows) — regardless of whether matching `SalesSummary` or
`FreightSummary` rows exist. -/
theorem pair_count_matches_purchase_summary (db : DB) (v b : Int) :
    pairCount (create_vendor_summary db) v b =
      psPairCount (purchaseSummary db) v b := by
  unfold create_vendor_summary pairCount
  rw [List.Perm.countP_eq _ (List.perm_insertionSort _ _)]
  exact pairCount_flatMap (nodup_ssKeys db) (nodup_fsKeys db) v b (purchaseSummary db)
